import Mathlib

/-!
Verification of the request-dispatch layer of `src/app.py` (document-search
chatbot).  The Lean definitions below are a shallow embedding of the three
functions with actual control flow:

* `send_chat_message` (app.py lines 237-350): query dispatcher with a bounded
  retry loop, error classification and exponential backoff;
* `upload_file_to_s3` (app.py lines 186-235): storage uploader with classified
  failure results;
* `display_chat_message` (app.py lines 352-400): tolerant response-shape
  normalisation with defaults.

External effects are made explicit: the behaviour of the remote service at
each attempt is an oracle `env : Nat -> AttemptOutcome`, the behaviour of the
storage write is an `S3Outcome`, `json.loads` applied by the normaliser is an
oracle `parse : String -> Option RMap`, and the random uuid is a parameter.
Python exceptions that the source does not catch are modelled with `Except`
(the error side meaning "the exception propagates to the caller"); every
branch the source catches is translated to an ordinary returned value.
The dispatcher additionally records a trace: which source return produced the
final value, how many remote invocations were made, and the list of backoff
sleeps.
-/

namespace App

/-- Substring test on character lists: some split point of `l` has `pat` as a
prefix of the remainder.  Models the Python `in` operator on strings. -/
def listContains (l pat : List Char) : Bool :=
  (List.range (l.length + 1)).any fun i => pat.isPrefixOf (l.drop i)

/-- Models Python `pat in s` for strings. -/
def strContains (s pat : String) : Bool :=
  listContains s.data pat.data

/-- Models Python `s.lower()` (character-wise lowering). -/
def strLower (s : String) : String :=
  ⟨s.data.map Char.toLower⟩

/-- Backoff schedule of app.py lines 274, 309 and 332:
`wait_time = (2 ** attempt) + 0.5`. -/
def wait_time (attempt : Nat) : ℚ :=
  2 ^ attempt + 0.5

/-- Retryable-error test of app.py lines 272 and 307:
`any(retryable in error_msg.lower() for retryable in ['timeout', 'throttle', 'temporary'])`. -/
def isRetryable (error_msg : String) : Bool :=
  ["timeout", "throttle", "temporary"].any fun k => strContains (strLower error_msg) k

/-- The `body` value of a decoded lambda payload: either a plain string or a
mapping, whose `error` entry (a string, when present) is all the dispatcher
reads from it. -/
inductive BodyVal where
  | str (s : String)
  | map (error : Option String)
deriving DecidableEq

/-- The decoded lambda payload `response_body`: optional `statusCode` and
optional `body` entries (app.py lines 265-271). -/
structure ResponseBody where
  statusCode : Option Int
  body : Option BodyVal
deriving DecidableEq

/-- What the remote invocation plus payload decoding does on one attempt of
the `try` block (app.py lines 258-265):
`ok` means invoke, read, decode and `json.loads` all succeeded with the given
payload; `jsonDecodeError` means `json.loads` raised `json.JSONDecodeError`;
`clientError msg` means the invocation raised `botocore` `ClientError` with
`str(e) = msg`; `otherExn msg` means some other exception with text `msg` was
raised. -/
inductive AttemptOutcome where
  | ok (rb : ResponseBody)
  | jsonDecodeError
  | clientError (msg : String)
  | otherExn (msg : String)

/-- A normalised document snippet. -/
structure Snippet where
  source : String
  text : String
deriving DecidableEq

/-- The `data` entry of the dispatcher result: either the raw `body` value
forwarded on a 200 status (app.py line 268), or a constructed reply dict
with a `response` string and a `snippets` list (always empty in the source). -/
inductive ChatData where
  | fromBody (b : BodyVal)
  | reply (response : String) (snippets : List Snippet)
deriving DecidableEq

/-- The dict returned by `send_chat_message`. -/
structure ChatResult where
  success : Bool
  data : ChatData
deriving DecidableEq

/-- Which `return` statement of `send_chat_message` produced the result. -/
inductive ReturnSite where
  | notConnected
  | ok200
  | errBody
  | invalidCreds
  | accessDenied
  | clientErrOther
  | jsonFmt
  | unexpected
  | exhausted
deriving DecidableEq

/-- Result of one iteration of the retry loop: either a `return` with the
given value from the given site, or `sleep(wait)` followed by `continue`. -/
inductive StepResult where
  | ret (r : ChatResult) (site : ReturnSite)
  | retry (wait : ℚ)
deriving DecidableEq

/-- Full observable behaviour of one `send_chat_message` call: the returned
dict, the return site, the number of remote invocations performed and the
backoff sleeps executed, in order. -/
structure SendTrace where
  result : ChatResult
  site : ReturnSite
  invocations : Nat
  sleeps : List ℚ
deriving DecidableEq

def notConnectedText : String :=
  "I\x27m not connected to AWS services right now. Please check your AWS credentials and region settings."

def errBodyText (error_msg : String) : String :=
  "I encountered an error: " ++ error_msg ++ ". Please try again or rephrase your question."

def invalidCredsText : String :=
  "Invalid AWS credentials. Please check your AWS access key and secret key."

def accessDeniedText : String :=
  "Access denied. Please check your AWS IAM permissions."

def awsServiceErrText (error_message : String) : String :=
  "AWS service error: " ++ error_message

def invalidFormatText : String :=
  "Received invalid response format. Please try again."

def unexpectedText (e : String) : String :=
  "An unexpected error occurred: " ++ e

def exhaustedText : String :=
  "Request failed after multiple attempts. Please try again later."

/-- Python text of the `AttributeError` raised by
`response_body.get('body', ...).get('error', ...)` when `body` is a string. -/
def strGetAttrErrText : String :=
  "\x27str\x27 object has no attribute \x27get\x27"

/-- Python text of the `KeyError` raised by `response_body['body']` when the
payload has `statusCode == 200` but no `body` entry. -/
def bodyKeyErrText : String :=
  "\x27body\x27"

/-- An apology reply with empty snippets, tagged successful. -/
def apologyResult (response : String) : ChatResult :=
  ⟨true, ChatData.reply response []⟩

/-- The generic `except Exception` handler (app.py lines 330-342): if attempts
remain, sleep and continue; otherwise return the unexpected-error apology. -/
def genericExnStep (e : String) (attempt : Nat) (max_retries : Int) : StepResult :=
  if (attempt : Int) < max_retries - 1 then StepResult.retry (wait_time attempt)
  else StepResult.ret (apologyResult (unexpectedText e)) ReturnSite.unexpected

/-- Handling of an error message extracted from the payload body (app.py
lines 271-285): retry when the message is retryable and attempts remain,
otherwise return the error-embedding apology. -/
def errBodyStep (error_msg : String) (attempt : Nat) (max_retries : Int) : StepResult :=
  if isRetryable error_msg = true ∧ (attempt : Int) < max_retries - 1 then
    StepResult.retry (wait_time attempt)
  else
    StepResult.ret (apologyResult (errBodyText error_msg)) ReturnSite.errBody

/-- One iteration of the retry loop of `send_chat_message` (app.py lines
258-342), given the outcome of the remote invocation on this attempt. -/
def attemptStep (outcome : AttemptOutcome) (attempt : Nat) (max_retries : Int) : StepResult :=
  match outcome with
  | AttemptOutcome.ok rb =>
      if rb.statusCode = some 200 then
        match rb.body with
        | some b => StepResult.ret ⟨true, ChatData.fromBody b⟩ ReturnSite.ok200
        | none => genericExnStep bodyKeyErrText attempt max_retries
      else
        match rb.body with
        | some (BodyVal.str _) => genericExnStep strGetAttrErrText attempt max_retries
        | some (BodyVal.map e) => errBodyStep (e.getD "Unknown error") attempt max_retries
        | none => errBodyStep "Unknown error" attempt max_retries
  | AttemptOutcome.clientError msg =>
      if strContains msg "UnrecognizedClientException" = true then
        StepResult.ret (apologyResult invalidCredsText) ReturnSite.invalidCreds
      else if strContains msg "AccessDeniedException" = true then
        StepResult.ret (apologyResult accessDeniedText) ReturnSite.accessDenied
      else if isRetryable msg = true ∧ (attempt : Int) < max_retries - 1 then
        StepResult.retry (wait_time attempt)
      else
        StepResult.ret (apologyResult (awsServiceErrText msg)) ReturnSite.clientErrOther
  | AttemptOutcome.jsonDecodeError =>
      StepResult.ret (apologyResult invalidFormatText) ReturnSite.jsonFmt
  | AttemptOutcome.otherExn e => genericExnStep e attempt max_retries

/-- The retry loop `for attempt in range(max_retries)` (app.py lines 257-350),
run with `remaining` iterations left and the current value of `attempt`;
when the loop body never returns, the final fallback of lines 344-350 is
returned.  `send_chat_message` enters it with `remaining = max_retries.toNat`
and `attempt = 0`. -/
def sendLoop (env : Nat → AttemptOutcome) (max_retries : Int) :
    Nat → Nat → SendTrace
  | 0, _ => ⟨apologyResult exhaustedText, ReturnSite.exhausted, 0, []⟩
  | remaining + 1, attempt =>
      match attemptStep (env attempt) attempt max_retries with
      | StepResult.ret r site => ⟨r, site, 1, []⟩
      | StepResult.retry w =>
          let t := sendLoop env max_retries remaining (attempt + 1)
          ⟨t.result, t.site, t.invocations + 1, w :: t.sleeps⟩

/-- `send_chat_message(message, max_retries)` (app.py lines 237-350).
`hasClient` models `lambda_client is not None`; `env` gives the behaviour of
the remote invocation on each attempt; `message` is the user question (only
forwarded to the remote service, hence not consumed by the control flow). -/
def send_chat_message (hasClient : Bool) (message : String)
    (env : Nat → AttemptOutcome) (max_retries : Int) : SendTrace :=
  if hasClient then sendLoop env max_retries max_retries.toNat 0
  else ⟨apologyResult notConnectedText, ReturnSite.notConnected, 0, []⟩

/-- What the storage write `s3_client.upload_fileobj(...)` does (app.py lines
204-215): succeed, raise a `botocore` `ClientError` with `str(e) = msg`, or
raise any other exception with text `msg` (for example a network fault that
is not a provider-classified client error). -/
inductive S3Outcome where
  | ok
  | clientError (msg : String)
  | otherExn (msg : String)
deriving DecidableEq

/-- The `data` entry of a successful upload result (app.py lines 220-227). -/
structure UploadData where
  s3_key : String
  bucket : String
  filename : String
deriving DecidableEq

/-- The dict returned by `upload_file_to_s3`. -/
inductive UploadResult where
  | success (data : UploadData)
  | failure (error : String)
deriving DecidableEq

def s3NotInitText : String :=
  "S3 client not initialized. Please check your AWS credentials."

def s3AccessDeniedText : String :=
  "Access denied to S3. Please check your AWS credentials and permissions."

def bucketNotFoundText (bucket : String) : String :=
  "S3 bucket \x27" ++ bucket ++ "\x27 not found. Please check your configuration."

def s3UploadFailedText (error_msg : String) : String :=
  "S3 upload failed: " ++ error_msg

/-- `upload_file_to_s3(file_content, filename)` (app.py lines 186-235).
`clientOk` models `s3_client is not None`; `bucket` is the configured
`S3_BUCKET`; `uuidStr` is the value of `uuid.uuid4()` drawn for this call;
`outcome` is what the storage write does.  The first component is `Except`:
`Except.error msg` means an exception with text `msg` propagates to the
caller (the source catches only `ClientError`).  The second component counts
storage-write calls performed. -/
def upload_file_to_s3 (clientOk : Bool) (bucket uuidStr : String)
    (file_content : List UInt8) (filename : String) (outcome : S3Outcome) :
    Except String UploadResult × Nat :=
  if clientOk then
    let s3_key := "uploads/" ++ uuidStr ++ "_" ++ filename
    match outcome with
    | S3Outcome.ok =>
        (Except.ok (UploadResult.success ⟨s3_key, bucket, filename⟩), 1)
    | S3Outcome.clientError msg =>
        if strContains msg "AccessDenied" = true then
          (Except.ok (UploadResult.failure s3AccessDeniedText), 1)
        else if strContains msg "NoSuchBucket" = true then
          (Except.ok (UploadResult.failure (bucketNotFoundText bucket)), 1)
        else
          (Except.ok (UploadResult.failure (s3UploadFailedText msg)), 1)
    | S3Outcome.otherExn msg => (Except.error msg, 1)
  else
    (Except.ok (UploadResult.failure s3NotInitText), 0)

/-- A snippet entry of a raw response mapping: `source` and `text` sub-fields,
each possibly absent. -/
structure SnippetRaw where
  source : Option String
  text : Option String
deriving DecidableEq

/-- A raw response mapping: optional `response` string and optional
`snippets` list, as read by `display_chat_message`. -/
structure RMap where
  response : Option String
  snippets : Option (List SnippetRaw)
deriving DecidableEq

/-- The `message['content']` handed to the AI branch of
`display_chat_message`: a plain string or a structured mapping. -/
inductive RawContent where
  | str (s : String)
  | map (m : RMap)
deriving DecidableEq

/-- The canonical normalised shape: the displayed answer text and the
displayed snippets after defaulting. -/
structure NormalizedAnswer where
  answer : String
  snippets : List Snippet
deriving DecidableEq

/-- Rendering of a response mapping (app.py lines 375-391):
`response_data.get('response', 'No response received')` and, per snippet,
`snippet.get('source', 'Unknown document')` and `snippet.get('text', '')`. -/
def renderData (response_data : RMap) : NormalizedAnswer :=
  ⟨response_data.response.getD "No response received",
   (response_data.snippets.getD []).map fun sn =>
     ⟨sn.source.getD "Unknown document", sn.text.getD ""⟩⟩

/-- The AI branch of `display_chat_message` (app.py lines 367-398) as a
normalisation function.  `parse` models `json.loads`: `none` means it raised
`json.JSONDecodeError`, in which case the source displays the content string
as is (lines 392-398). -/
def display_chat_message (parse : String → Option RMap) (content : RawContent) :
    NormalizedAnswer :=
  match content with
  | RawContent.str s =>
      if s.trim.startsWith "\x7b" then
        match parse s with
        | some response_data => renderData response_data
        | none => ⟨s, []⟩
      else
        renderData ⟨some s, none⟩
  | RawContent.map m => renderData m

/-- Character at index `n` of a string, used to discriminate the fixed
prefixes of the upload failure messages. -/
def probe (n : Nat) (s : String) : Option Char :=
  (s.data.drop n).head?

/-! Helper lemmas about single attempts of the dispatcher retry loop. -/

theorem attemptStep_ret_success {o : AttemptOutcome} {a : Nat} {m : Int}
    {r : ChatResult} {s : ReturnSite}
    (h : attemptStep o a m = StepResult.ret r s) : r.success = true := by
  rcases o with rb | msg | _ | e <;>
    simp only [attemptStep, genericExnStep, errBodyStep] at h <;>
    repeat' split at h
  all_goals (try cases h) <;> rfl

theorem attemptStep_ret_site {o : AttemptOutcome} {a : Nat} {m : Int}
    {r : ChatResult} {s : ReturnSite}
    (h : attemptStep o a m = StepResult.ret r s) : s ≠ ReturnSite.exhausted := by
  rcases o with rb | msg | _ | e <;>
    simp only [attemptStep, genericExnStep, errBodyStep] at h <;>
    repeat' split at h
  all_goals (try cases h) <;> decide

theorem attemptStep_ret_reply {o : AttemptOutcome} {a : Nat} {m : Int}
    {r : ChatResult} {s : ReturnSite}
    (h : attemptStep o a m = StepResult.ret r s) (hs : s ≠ ReturnSite.ok200) :
    ∃ t, r.data = ChatData.reply t [] := by
  rcases o with rb | msg | _ | e <;>
    simp only [attemptStep, genericExnStep, errBodyStep, apologyResult] at h <;>
    repeat' split at h
  all_goals (try cases h)
  all_goals first
    | exact absurd rfl hs
    | exact ⟨_, rfl⟩

theorem attemptStep_retry_lt {o : AttemptOutcome} {a : Nat} {m : Int} {w : ℚ}
    (h : attemptStep o a m = StepResult.retry w) : (a : Int) < m - 1 := by
  rcases o with rb | msg | _ | e <;>
    simp only [attemptStep, genericExnStep, errBodyStep] at h <;>
    repeat' split at h
  all_goals (try cases h)
  all_goals tauto

theorem sendLoop_step_ret {env : Nat → AttemptOutcome} {m : Int} {a : Nat}
    {r : ChatResult} {site : ReturnSite} (k : Nat)
    (h : attemptStep (env a) a m = StepResult.ret r site) :
    sendLoop env m (k + 1) a = ⟨r, site, 1, []⟩ := by
  simp only [sendLoop, h]

theorem sendLoop_step_retry {env : Nat → AttemptOutcome} {m : Int} {a : Nat}
    {w : ℚ} (k : Nat) (h : attemptStep (env a) a m = StepResult.retry w) :
    sendLoop env m (k + 1) a =
      ⟨(sendLoop env m k (a + 1)).result, (sendLoop env m k (a + 1)).site,
        (sendLoop env m k (a + 1)).invocations + 1,
        w :: (sendLoop env m k (a + 1)).sleeps⟩ := by
  simp only [sendLoop, h]

/-! Invariants of the whole retry loop. -/

theorem sendLoop_success (env : Nat → AttemptOutcome) (m : Int) :
    ∀ remaining attempt, (sendLoop env m remaining attempt).result.success = true := by
  intro remaining
  induction remaining with
  | zero => intro attempt; rfl
  | succ k ih =>
      intro attempt
      cases hstep : attemptStep (env attempt) attempt m with
      | ret r site =>
          simp only [sendLoop, hstep]
          exact attemptStep_ret_success hstep
      | retry w =>
          simp only [sendLoop, hstep]
          exact ih (attempt + 1)

theorem sendLoop_reply (env : Nat → AttemptOutcome) (m : Int) :
    ∀ remaining attempt, (sendLoop env m remaining attempt).site ≠ ReturnSite.ok200 →
      ∃ t, (sendLoop env m remaining attempt).result.data = ChatData.reply t [] := by
  intro remaining
  induction remaining with
  | zero => intro attempt _; exact ⟨exhaustedText, rfl⟩
  | succ k ih =>
      intro attempt
      cases hstep : attemptStep (env attempt) attempt m with
      | ret r site =>
          simp only [sendLoop, hstep]
          exact attemptStep_ret_reply hstep
      | retry w =>
          simp only [sendLoop, hstep]
          exact ih (attempt + 1)

theorem sendLoop_site_ne (env : Nat → AttemptOutcome) (m : Int) :
    ∀ (k attempt : Nat), (attempt : Int) + (k : Int) + 1 = m →
      (sendLoop env m (k + 1) attempt).site ≠ ReturnSite.exhausted := by
  intro k
  induction k with
  | zero =>
      intro attempt hinv
      cases hstep : attemptStep (env attempt) attempt m with
      | ret r site =>
          simp only [sendLoop, hstep]
          exact attemptStep_ret_site hstep
      | retry w =>
          exact absurd (attemptStep_retry_lt hstep) (by omega)
  | succ j ih =>
      intro attempt hinv
      cases hstep : attemptStep (env attempt) attempt m with
      | ret r site =>
          simp only [sendLoop, hstep]
          exact attemptStep_ret_site hstep
      | retry w =>
          simp only [sendLoop, hstep]
          exact ih (attempt + 1) (by push_cast at hinv ⊢; omega)

theorem attemptStep_errBody (a : Nat) (m : Int) (sc : Int) (e : String)
    (hsc : sc ≠ 200) :
    attemptStep (AttemptOutcome.ok ⟨some sc, some (BodyVal.map (some e))⟩) a m =
      errBodyStep e a m := by
  simp only [attemptStep]
  rw [if_neg]
  · rfl
  · simp [hsc]

theorem errBodyStep_last (e : String) (a : Nat) (m : Int) (h : ¬ (a : Int) < m - 1) :
    errBodyStep e a m =
      StepResult.ret (apologyResult (errBodyText e)) ReturnSite.errBody := by
  unfold errBodyStep
  rw [if_neg]
  tauto

theorem errBodyStep_retry (e : String) (a : Nat) (m : Int)
    (hr : isRetryable e = true) (h : (a : Int) < m - 1) :
    errBodyStep e a m = StepResult.retry (wait_time a) := by
  unfold errBodyStep
  rw [if_pos ⟨hr, h⟩]

/-- When every attempt yields a non-200 payload whose body carries a
retryable error message, the loop runs through its whole budget sleeping
between attempts and ends with the error-embedding apology of the last
attempt. -/
theorem sendLoop_retryable_body (env : Nat → AttemptOutcome) (m : Int)
    (sc : Nat → Int) (e : Nat → String) :
    ∀ (k attempt : Nat), (attempt : Int) + (k : Int) + 1 = m →
      (∀ i, attempt ≤ i → i ≤ attempt + k →
        env i = AttemptOutcome.ok ⟨some (sc i), some (BodyVal.map (some (e i)))⟩ ∧
        sc i ≠ 200 ∧ isRetryable (e i) = true) →
      sendLoop env m (k + 1) attempt =
        ⟨apologyResult (errBodyText (e (attempt + k))), ReturnSite.errBody, k + 1,
          (List.range' attempt k).map wait_time⟩ := by
  intro k
  induction k with
  | zero =>
      intro attempt hinv hall
      obtain ⟨henv, hsc, hr⟩ := hall attempt le_rfl (by omega)
      have hstep : attemptStep (env attempt) attempt m =
          StepResult.ret (apologyResult (errBodyText (e attempt))) ReturnSite.errBody := by
        rw [henv, attemptStep_errBody _ _ _ _ hsc, errBodyStep_last _ _ _ (by omega)]
      rw [sendLoop_step_ret 0 hstep]
      rfl
  | succ j ih =>
      intro attempt hinv hall
      obtain ⟨henv, hsc, hr⟩ := hall attempt le_rfl (by omega)
      have hstep : attemptStep (env attempt) attempt m =
          StepResult.retry (wait_time attempt) := by
        rw [henv, attemptStep_errBody _ _ _ _ hsc, errBodyStep_retry _ _ _ hr (by omega)]
      rw [sendLoop_step_retry (j + 1) hstep]
      rw [ih (attempt + 1) (by push_cast at hinv ⊢; omega)
        (fun i h1 h2 => hall i (by omega) (by omega))]
      rw [List.range'_succ]
      have harith : attempt + 1 + j = attempt + (j + 1) := by omega
      rw [harith]
      rfl

/-! Distinctness of the three upload failure message templates. -/

theorem s3AccessDenied_ne_bucketNotFound (b : String) :
    s3AccessDeniedText ≠ bucketNotFoundText b := by
  intro h
  have hp := congrArg (probe 0) h
  rw [show probe 0 s3AccessDeniedText = some 'A' from rfl,
    show probe 0 (bucketNotFoundText b) = some 'S' from rfl] at hp
  exact absurd hp (by decide)

theorem s3AccessDenied_ne_uploadFailed (m : String) :
    s3AccessDeniedText ≠ s3UploadFailedText m := by
  intro h
  have hp := congrArg (probe 0) h
  rw [show probe 0 s3AccessDeniedText = some 'A' from rfl,
    show probe 0 (s3UploadFailedText m) = some 'S' from rfl] at hp
  exact absurd hp (by decide)

theorem bucketNotFound_ne_uploadFailed (b m : String) :
    bucketNotFoundText b ≠ s3UploadFailedText m := by
  intro h
  have hp := congrArg (probe 3) h
  rw [show probe 3 (bucketNotFoundText b) = some 'b' from rfl,
    show probe 3 (s3UploadFailedText m) = some 'u' from rfl] at hp
  exact absurd hp (by decide)

/-- C1: for every question string, every retry bound of at least one, and
every behaviour of the remote invocation (success bodies, error bodies,
exceptions raised while invoking or parsing the payload), `send_chat_message`
returns a result tagged successful, and on every non-200 path the payload is
a text reply with empty snippets; no structurally-failed result is returned,
and no transport exception propagates (the model is a total function because
every raising path of the source is caught and translated to a return). -/
theorem send_chat_message_always_success (hasClient : Bool) (message : String)
    (env : Nat → AttemptOutcome) (max_retries : Int) (hm : 1 ≤ max_retries) :
    (send_chat_message hasClient message env max_retries).result.success = true ∧
    ((send_chat_message hasClient message env max_retries).site ≠ ReturnSite.ok200 →
      ∃ t, (send_chat_message hasClient message env max_retries).result.data =
        ChatData.reply t []) := by
  cases hasClient with
  | false => exact ⟨rfl, fun _ => ⟨notConnectedText, rfl⟩⟩
  | true =>
      refine ⟨sendLoop_success env max_retries max_retries.toNat 0, ?_⟩
      exact sendLoop_reply env max_retries max_retries.toNat 0

theorem send_chat_message_always_success_witness :
    (1 : Int) ≤ 3 ∧
    (send_chat_message true "q" (fun _ => AttemptOutcome.otherExn "boom") 3).result.success
      = true :=
  ⟨by norm_num,
   (send_chat_message_always_success true "q" (fun _ => AttemptOutcome.otherExn "boom") 3
      (by norm_num)).1⟩

/-- C2 counterexample: with `max_retries = 2` and a remote service that always
returns an error body containing "timeout", the dispatcher does perform
exactly two attempts, but it returns the error-embedding apology of the last
attempt, not the fixed exhaustion apology claimed. -/
theorem send_retry_exhaustion_counterexample :
    send_chat_message true "q"
        (fun _ => AttemptOutcome.ok ⟨some 500, some (BodyVal.map (some "timeout"))⟩) 2 =
      ⟨apologyResult (errBodyText "timeout"), ReturnSite.errBody, 2, [wait_time 0]⟩ ∧
    errBodyText "timeout" ≠ exhaustedText :=
  ⟨rfl, by decide⟩

/-- C2 amended: for every `max_retries ≥ 1`, if every remote invocation
returns a non-200 payload whose body carries a retryable error message, then
`send_chat_message` performs exactly `max_retries` invocation attempts,
sleeps the backoff between consecutive attempts, and returns the apology
embedding the last attempt's error message ("I encountered an error: ...")
with empty snippets — not the fixed exhaustion apology. -/
theorem send_retry_bound_amended (max_retries : Int) (hm : 1 ≤ max_retries)
    (message : String) (env : Nat → AttemptOutcome) (sc : Nat → Int) (e : Nat → String)
    (hall : ∀ i : Nat, (i : Int) < max_retries →
      env i = AttemptOutcome.ok ⟨some (sc i), some (BodyVal.map (some (e i)))⟩ ∧
      sc i ≠ 200 ∧ isRetryable (e i) = true) :
    send_chat_message true message env max_retries =
      ⟨apologyResult (errBodyText (e (max_retries.toNat - 1))), ReturnSite.errBody,
        max_retries.toNat, (List.range (max_retries.toNat - 1)).map wait_time⟩ := by
  obtain ⟨k, hk⟩ : ∃ k, max_retries.toNat = k + 1 := ⟨max_retries.toNat - 1, by omega⟩
  show sendLoop env max_retries max_retries.toNat 0 = _
  rw [hk]
  rw [sendLoop_retryable_body env max_retries sc e k 0 (by omega)
    (fun i h1 h2 => hall i (by omega))]
  rw [List.range_eq_range' (k + 1 - 1)]
  have h1 : 0 + k = k := by omega
  have h2 : k + 1 - 1 = k := by omega
  rw [h1, h2]

theorem send_retry_bound_amended_witness :
    send_chat_message true "q"
        (fun _ => AttemptOutcome.ok ⟨some 500, some (BodyVal.map (some "timeout"))⟩) 2 =
      ⟨apologyResult (errBodyText "timeout"), ReturnSite.errBody, 2, [wait_time 0]⟩ := by
  have h := send_retry_bound_amended 2 (by norm_num) "q"
    (fun _ => AttemptOutcome.ok ⟨some 500, some (BodyVal.map (some "timeout"))⟩)
    (fun _ => 500) (fun _ => "timeout")
    (fun i _ => ⟨rfl, show (500 : Int) ≠ 200 by decide,
      show isRetryable "timeout" = true by decide⟩)
  simpa using h

/-- C3 counterexample: with `max_retries = 3` and a payload-parse failure on
the first attempt, the dispatcher returns immediately after one invocation
with the fixed invalid-format apology and performs no backoff sleep — it does
not proceed to the next attempt as the claim states. -/
theorem send_parse_failure_counterexample :
    send_chat_message true "q" (fun _ => AttemptOutcome.jsonDecodeError) 3 =
      ⟨apologyResult invalidFormatText, ReturnSite.jsonFmt, 1, []⟩ :=
  rfl

/-- C3 amended: for every `max_retries ≥ 1`, an attempt whose returned
payload cannot be parsed (a `json.JSONDecodeError`) makes the dispatcher
return immediately with the fixed apology "Received invalid response format.
Please try again." and empty snippets, after exactly one invocation and with
no backoff, regardless of how many attempts remain. -/
theorem send_parse_failure_amended (max_retries : Int) (hm : 1 ≤ max_retries)
    (message : String) (env : Nat → AttemptOutcome)
    (h0 : env 0 = AttemptOutcome.jsonDecodeError) :
    send_chat_message true message env max_retries =
      ⟨apologyResult invalidFormatText, ReturnSite.jsonFmt, 1, []⟩ := by
  obtain ⟨k, hk⟩ : ∃ k, max_retries.toNat = k + 1 := ⟨max_retries.toNat - 1, by omega⟩
  show sendLoop env max_retries max_retries.toNat 0 = _
  rw [hk]
  have hstep : attemptStep (env 0) 0 max_retries =
      StepResult.ret (apologyResult invalidFormatText) ReturnSite.jsonFmt := by
    rw [h0]
    rfl
  exact sendLoop_step_ret k hstep

theorem send_parse_failure_amended_witness :
    send_chat_message true "q" (fun i => AttemptOutcome.jsonDecodeError) 4 =
      ⟨apologyResult invalidFormatText, ReturnSite.jsonFmt, 1, []⟩ :=
  send_parse_failure_amended 4 (by norm_num) "q"
    (fun i => AttemptOutcome.jsonDecodeError) rfl

/-- C4 counterexample: when the storage write raises an exception that is not
a provider-classified `ClientError` (here a generic connection fault), the
exception propagates out of `upload_file_to_s3` instead of being returned as
a value — the source catches only `ClientError`. -/
theorem upload_uncaught_exception_counterexample :
    (upload_file_to_s3 true "cacheme-documents" "u1" [37, 80, 68, 70] "doc.pdf"
        (S3Outcome.otherExn "Connection aborted")).1 =
      Except.error "Connection aborted" :=
  rfl

/-- C4 amended: `upload_file_to_s3` returns a value to its caller on every
code path in which the storage write either succeeds or raises a
provider-classified `ClientError` (and when the client is not configured);
an exception of any other kind propagates to the caller. -/
theorem upload_returns_amended (clientOk : Bool) (bucket uuidStr : String)
    (file_content : List UInt8) (filename : String) (outcome : S3Outcome)
    (h : ∀ msg, outcome ≠ S3Outcome.otherExn msg) :
    ∃ r : UploadResult,
      (upload_file_to_s3 clientOk bucket uuidStr file_content filename outcome).1 =
        Except.ok r := by
  cases clientOk with
  | false => exact ⟨UploadResult.failure s3NotInitText, rfl⟩
  | true =>
      cases outcome with
      | ok => exact ⟨_, rfl⟩
      | clientError msg =>
          simp only [upload_file_to_s3]
          split_ifs <;> exact ⟨_, rfl⟩
      | otherExn msg => exact absurd rfl (h msg)

theorem upload_returns_amended_witness :
    ∃ r : UploadResult,
      (upload_file_to_s3 true "cacheme-documents" "u1" [] "doc.pdf"
          (S3Outcome.clientError "AccessDenied")).1 = Except.ok r :=
  upload_returns_amended true "cacheme-documents" "u1" [] "doc.pdf"
    (S3Outcome.clientError "AccessDenied") (fun msg h => nomatch h)

/-- C5: the response normaliser is total and, on each of the enumerated
input shapes — plain string, malformed brace-prefixed string, parseable
brace-prefixed string, mapping with missing fields, mapping with all
fields — produces the well-formed result whose answer defaults to
"No response received" when absent and whose snippet entries default
`source` to "Unknown document" and `text` to the empty string. -/
theorem display_normalize_total (parse : String → Option RMap) (content : RawContent) :
    (∀ s, content = RawContent.str s → s.trim.startsWith "\x7b" = false →
      display_chat_message parse content = ⟨s, []⟩) ∧
    (∀ s, content = RawContent.str s → s.trim.startsWith "\x7b" = true →
      parse s = none → display_chat_message parse content = ⟨s, []⟩) ∧
    (∀ s m, content = RawContent.str s → s.trim.startsWith "\x7b" = true →
      parse s = some m → display_chat_message parse content =
        ⟨m.response.getD "No response received",
         (m.snippets.getD []).map fun sn =>
           ⟨sn.source.getD "Unknown document", sn.text.getD ""⟩⟩) ∧
    (∀ m, content = RawContent.map m → display_chat_message parse content =
      ⟨m.response.getD "No response received",
       (m.snippets.getD []).map fun sn =>
         ⟨sn.source.getD "Unknown document", sn.text.getD ""⟩⟩) := by
  refine ⟨?_, ?_, ?_, ?_⟩
  · rintro s rfl hb
    simp [display_chat_message, hb, renderData]
  · rintro s rfl hb hp
    simp [display_chat_message, hb, hp]
  · rintro s m rfl hb hp
    simp [display_chat_message, hb, hp, renderData]
  · rintro m rfl
    simp [display_chat_message, renderData]

theorem display_normalize_total_witness :
    display_chat_message (fun _ => none) (RawContent.map ⟨none, none⟩) =
      ⟨"No response received", []⟩ :=
  (display_normalize_total (fun _ => none) (RawContent.map ⟨none, none⟩)).2.2.2
    ⟨none, none⟩ rfl

/-- C6: the backoff schedule is exactly `wait_time n = 2 ^ n + 0.5` time
units for every attempt, so attempts 0, 1, 2 wait 1.5, 2.5 and 4.5, and the
schedule is strictly monotonic with no jitter. -/
theorem wait_time_schedule :
    (∀ n : Nat, wait_time n = 2 ^ n + 0.5) ∧
    wait_time 0 = 1.5 ∧ wait_time 1 = 2.5 ∧ wait_time 2 = 4.5 ∧
    ∀ n : Nat, wait_time n < wait_time (n + 1) := by
  refine ⟨fun n => rfl, by norm_num [wait_time], by norm_num [wait_time],
    by norm_num [wait_time], ?_⟩
  intro n
  have h2 : (0 : ℚ) < 2 ^ n := pow_pos (by norm_num) n
  simp only [wait_time, pow_succ]
  nlinarith

/-- C7 counterexample: an error message that contains
"AccessDeniedException" but also contains "UnrecognizedClientException"
makes the dispatcher return the invalid-credentials apology, not the
access-denied one, because the credentials marker is tested first — so the
claim as stated fails for such a message. -/
theorem send_access_denied_counterexample :
    strContains "UnrecognizedClientException AccessDeniedException"
      "AccessDeniedException" = true ∧
    send_chat_message true "q"
        (fun _ => AttemptOutcome.clientError
          "UnrecognizedClientException AccessDeniedException") 3 =
      ⟨apologyResult invalidCredsText, ReturnSite.invalidCreds, 1, []⟩ ∧
    invalidCredsText ≠ accessDeniedText :=
  ⟨by decide, rfl, by decide⟩

/-- C7 amended: if the first remote invocation raises a `ClientError` whose
message contains "AccessDeniedException" and does not contain
"UnrecognizedClientException" (which the source tests first), the dispatcher
returns immediately after exactly one attempt, with no backoff, carrying the
access-denied apology that mentions IAM permissions, and empty snippets. -/
theorem send_access_denied_amended (max_retries : Int) (hm : 1 ≤ max_retries)
    (message : String) (env : Nat → AttemptOutcome) (msg : String)
    (h0 : env 0 = AttemptOutcome.clientError msg)
    (hacc : strContains msg "AccessDeniedException" = true)
    (hunrec : strContains msg "UnrecognizedClientException" = false) :
    send_chat_message true message env max_retries =
      ⟨apologyResult accessDeniedText, ReturnSite.accessDenied, 1, []⟩ := by
  obtain ⟨k, hk⟩ : ∃ k, max_retries.toNat = k + 1 := ⟨max_retries.toNat - 1, by omega⟩
  show sendLoop env max_retries max_retries.toNat 0 = _
  rw [hk]
  have hstep : attemptStep (env 0) 0 max_retries =
      StepResult.ret (apologyResult accessDeniedText) ReturnSite.accessDenied := by
    rw [h0]
    simp [attemptStep, hacc, hunrec]
  exact sendLoop_step_ret k hstep

theorem send_access_denied_amended_witness :
    send_chat_message true "q"
        (fun i => AttemptOutcome.clientError "AccessDeniedException") 3 =
      ⟨apologyResult accessDeniedText, ReturnSite.accessDenied, 1, []⟩ :=
  send_access_denied_amended 3 (by norm_num) "q"
    (fun i => AttemptOutcome.clientError "AccessDeniedException")
    "AccessDeniedException" rfl (by decide) (by decide)

/-- C8: a successful upload stores under the key
`uploads/<uuid>_<filename>`, so two uploads of files with identical non-empty
filenames and distinct generated identifiers receive distinct storage keys. -/
theorem upload_key_uniqueness (bucket u1 u2 : String) (file_content : List UInt8)
    (filename : String) (hf : filename ≠ "") (hu : u1 ≠ u2) :
    ∃ d1 d2 : UploadData,
      (upload_file_to_s3 true bucket u1 file_content filename S3Outcome.ok).1 =
        Except.ok (UploadResult.success d1) ∧
      (upload_file_to_s3 true bucket u2 file_content filename S3Outcome.ok).1 =
        Except.ok (UploadResult.success d2) ∧
      d1.s3_key = "uploads/" ++ u1 ++ "_" ++ filename ∧
      d2.s3_key = "uploads/" ++ u2 ++ "_" ++ filename ∧
      d1.s3_key ≠ d2.s3_key := by
  refine ⟨⟨"uploads/" ++ u1 ++ "_" ++ filename, bucket, filename⟩,
    ⟨"uploads/" ++ u2 ++ "_" ++ filename, bucket, filename⟩,
    rfl, rfl, rfl, rfl, ?_⟩
  intro h
  apply hu
  have hd := congrArg String.data h
  simp only [String.data_append] at hd
  exact String.ext
    (List.append_cancel_left (List.append_cancel_right (List.append_cancel_right hd)))

theorem upload_key_uniqueness_witness :
    ∃ d1 d2 : UploadData,
      (upload_file_to_s3 true "cacheme-documents" "aaa" [] "policy.pdf" S3Outcome.ok).1 =
        Except.ok (UploadResult.success d1) ∧
      (upload_file_to_s3 true "cacheme-documents" "bbb" [] "policy.pdf" S3Outcome.ok).1 =
        Except.ok (UploadResult.success d2) ∧
      d1.s3_key = "uploads/" ++ "aaa" ++ "_" ++ "policy.pdf" ∧
      d2.s3_key = "uploads/" ++ "bbb" ++ "_" ++ "policy.pdf" ∧
      d1.s3_key ≠ d2.s3_key :=
  upload_key_uniqueness "cacheme-documents" "aaa" "bbb" [] "policy.pdf"
    (by decide) (by decide)

/-- C9: when the storage write raises a provider-classified `ClientError`,
`upload_file_to_s3` returns a structural failure whose message is the
access-denied text, the bucket-not-found text or the generic provider-fault
text according to the error's content, the three message templates are
pairwise distinct, and exactly one storage-write call is made per
invocation (the uploader never retries internally). -/
theorem upload_client_error_classified (bucket uuidStr : String)
    (file_content : List UInt8) (filename msg : String) :
    (upload_file_to_s3 true bucket uuidStr file_content filename
        (S3Outcome.clientError msg)).2 = 1 ∧
    (upload_file_to_s3 true bucket uuidStr file_content filename
        (S3Outcome.clientError msg)).1 =
      Except.ok (UploadResult.failure
        (if strContains msg "AccessDenied" = true then s3AccessDeniedText
         else if strContains msg "NoSuchBucket" = true then bucketNotFoundText bucket
         else s3UploadFailedText msg)) ∧
    s3AccessDeniedText ≠ bucketNotFoundText bucket ∧
    s3AccessDeniedText ≠ s3UploadFailedText msg ∧
    bucketNotFoundText bucket ≠ s3UploadFailedText msg := by
  refine ⟨?_, ?_, s3AccessDenied_ne_bucketNotFound bucket,
    s3AccessDenied_ne_uploadFailed msg, bucketNotFound_ne_uploadFailed bucket msg⟩
  · simp only [upload_file_to_s3]
    split_ifs <;> rfl
  · simp only [upload_file_to_s3]
    split_ifs <;> rfl

/-- C10: with the remote client configured, `max_retries ≤ 0` makes the loop
body never run: zero invocations are performed and the final fallback
exhaustion apology with empty snippets is returned; for every
`max_retries ≥ 1` the final fallback is never the result, because every
terminating path on the last attempt returns from inside the loop. -/
theorem send_final_fallback (message : String) (env : Nat → AttemptOutcome)
    (max_retries : Int) :
    (max_retries ≤ 0 →
      send_chat_message true message env max_retries =
        ⟨apologyResult exhaustedText, ReturnSite.exhausted, 0, []⟩) ∧
    (1 ≤ max_retries →
      (send_chat_message true message env max_retries).site ≠ ReturnSite.exhausted) := by
  constructor
  · intro hm
    show sendLoop env max_retries max_retries.toNat 0 = _
    rw [show max_retries.toNat = 0 by omega]
    rfl
  · intro hm
    obtain ⟨k, hk⟩ : ∃ k, max_retries.toNat = k + 1 := ⟨max_retries.toNat - 1, by omega⟩
    show (sendLoop env max_retries max_retries.toNat 0).site ≠ _
    rw [hk]
    exact sendLoop_site_ne env max_retries k 0 (by omega)

theorem send_final_fallback_witness :
    send_chat_message true "q" (fun i => AttemptOutcome.jsonDecodeError) 0 =
      ⟨apologyResult exhaustedText, ReturnSite.exhausted, 0, []⟩ ∧
    (send_chat_message true "q" (fun i => AttemptOutcome.jsonDecodeError) 1).site ≠
      ReturnSite.exhausted :=
  ⟨(send_final_fallback "q" (fun i => AttemptOutcome.jsonDecodeError) 0).1 (by norm_num),
   (send_final_fallback "q" (fun i => AttemptOutcome.jsonDecodeError) 1).2 (by norm_num)⟩

end App
